import Mathlib

/-!
Verification of `pg_retire` (contrib module `pg_retire.c`): a watchdog that
probes the client socket from a timer handler and cancels the running
transaction when the client is down.

The C code is shallowly embedded: the fixed 128-byte `CharBuffer` and its
`write_cbuf` append, the probe-message construction
(`send_dummy_message_to_frontend`), the flush loop (`flush_cbuf`) driven by an
oracle of `write(2)` outcomes, the timeout scheduler (`maybeScheduleAlarm`),
the cancellation path (`cancelTransaction`) and the two hook entry points
(`pg_retire_post_parse_analyze`, `pg_retire_alarm_handler`).
-/

namespace PgRetire

/-- Size that dummy packet can be stored (`#define WBUFSIZE 128`). -/
def WBUFSIZE : Nat := 128

/-- Data container for ParameterStatus message (`struct CharBuffer`): a fixed
128-byte array `buf` and the next writing position `pos`.  `buf` is modelled
as a list of byte values; the C struct lives on the stack, so the initial
contents of `buf` are arbitrary. -/
structure CharBuffer where
  buf : List Nat
  pos : Nat
deriving Repr, DecidableEq

/-- The copy loop of `write_cbuf`: `while (i++ < len) *dst++ = *src++;`
copies `data` into `buf` starting at index `pos`, one byte at a time. -/
def copyBytes (buf : List Nat) (pos : Nat) (data : List Nat) : List Nat :=
  match data with
  | [] => buf
  | b :: bs => copyBytes (buf.set pos b) (pos + 1) bs

/-- `write_cbuf(cb, buf, len)`: if `cb->pos + len <= WBUFSIZE`, copy `len`
bytes into the buffer at `pos`, advance `pos` by `len` and return `len`;
otherwise return `-1` without touching the buffer.  The returned pair is
(return code, updated buffer). -/
def write_cbuf (cb : CharBuffer) (data : List Nat) : Int × CharBuffer :=
  if cb.pos + data.length ≤ WBUFSIZE then
    ((data.length : Int),
      { buf := copyBytes cb.buf cb.pos data, pos := cb.pos + data.length })
  else
    (-1, cb)

/-- Byte values of a Lean string (all characters used here are ASCII). -/
def strBytes (s : String) : List Nat := s.toList.map Char.toNat

/-- Bytes of a NUL-terminated C string literal, as `sizeof(lit)` bytes. -/
def cstringBytes (s : String) : List Nat := strBytes s ++ [0]

/-- `PGRETIRE_DUMMY_PAREMETER_NAME` (sic) from the C source. -/
def PGRETIRE_DUMMY_PAREMETER_NAME : String := "pg_retire_dummy_name"

/-- `PGRETIRE_DUMMY_PAREMETER_VALUE` (sic) from the C source. -/
def PGRETIRE_DUMMY_PAREMETER_VALUE : String := "pg_retire_dummy_value"

/-- `PGRETIRE_KEEP_ALIVE_MESSAGE` from the C source. -/
def PGRETIRE_KEEP_ALIVE_MESSAGE : String := "keep alive checking from pg_retire"

/-- `htonl` of a 32-bit value laid out in memory: the 4 bytes in big-endian
order, as written by `write_cbuf(&cb, &plen, sizeof(plen))`. -/
def be32 (n : Nat) : List Nat :=
  [n / 2 ^ 24 % 256, n / 2 ^ 16 % 256, n / 2 ^ 8 % 256, n % 256]

/-- The message-construction part of `send_dummy_message_to_frontend`: starting
from a stack buffer with arbitrary contents `init` and `pos = 0`, perform the
`write_cbuf` calls of the protocol-version branch taken for `protoMajor`.
Returns the final buffer together with the list of `write_cbuf` return codes
(which the C code ignores). -/
def send_build (protoMajor : Nat) (init : List Nat) : CharBuffer × List Int :=
  let cb0 : CharBuffer := { buf := init, pos := 0 }
  if 3 ≤ protoMajor then
    let r1 := write_cbuf cb0 [83]
    let plen := (cstringBytes PGRETIRE_DUMMY_PAREMETER_NAME).length +
                (cstringBytes PGRETIRE_DUMMY_PAREMETER_VALUE).length + 4
    let r2 := write_cbuf r1.2 (be32 plen)
    let r3 := write_cbuf r2.2 (cstringBytes PGRETIRE_DUMMY_PAREMETER_NAME)
    let r4 := write_cbuf r3.2 (cstringBytes PGRETIRE_DUMMY_PAREMETER_VALUE)
    (r4.2, [r1.1, r2.1, r3.1, r4.1])
  else
    let r1 := write_cbuf cb0 [78]
    let r2 := write_cbuf r1.2 (cstringBytes PGRETIRE_KEEP_ALIVE_MESSAGE)
    (r2.2, [r1.1, r2.1])

/-- The errno values `flush_cbuf` distinguishes.  `EAGAIN` and `EWOULDBLOCK`
are kept apart because the C code tests both names. -/
inductive Errno where
  | EINTR
  | EAGAIN
  | EWOULDBLOCK
  | other (n : Nat)
deriving Repr, DecidableEq

/-- The `for (;;)` loop of `flush_cbuf`, driven by an oracle.

Each non-SSL iteration performs one `write(2)` whose outcome (return value
`r` and, when `r <= 0`, the resulting `errno`) is taken from the head of
`trace`.  When `ssl` is true the SSL branch only logs and performs no write,
so `r` keeps the value of the uninitialized local variable and `errno` keeps
its stale process-wide value: both are modelled by `residual`, the same on
every iteration, and `trace` is not consumed.

`fuel` bounds the number of iterations; `none` means the loop did not finish
within `fuel` iterations (or, non-SSL, the oracle ran out).  `some c` is the
C return value. -/
def flushIter (ssl : Bool) (residual : Int × Errno) (wlen offset : Int)
    (trace : List (Int × Errno)) (fuel : Nat) : Option Int :=
  match fuel with
  | 0 => none
  | Nat.succ f =>
    let step : Option ((Int × Errno) × List (Int × Errno)) :=
      if ssl then
        some (residual, trace)
      else
        match trace with
        | [] => none
        | t :: ts => some (t, ts)
    match step with
    | none => none
    | some ((r, e), tr) =>
      if 0 < r then
        if wlen - r = 0 then some 0
        else if wlen - r < 0 then some (-1)
        else flushIter ssl residual (wlen - r) (offset + r) tr f
      else if e = Errno.EINTR then
        flushIter ssl residual wlen offset tr f
      else if e = Errno.EAGAIN ∨ e = Errno.EWOULDBLOCK then
        some 0
      else
        some (-1)

/-- `flush_cbuf(cb, port)`: return 0 immediately on an empty buffer, else run
the write loop on the `cb->pos` buffered bytes. -/
def flush_cbuf (cb : CharBuffer) (ssl : Bool) (residual : Int × Errno)
    (trace : List (Int × Errno)) (fuel : Nat) : Option Int :=
  if cb.pos = 0 then some 0
  else flushIter ssl residual (cb.pos : Int) 0 trace fuel

/-- Environment of one probe: negotiated protocol major version, whether the
port uses SSL, the residual (uninitialized `r`, stale `errno`) pair read by
the SSL branch, the oracle of socket-write outcomes, the loop fuel, and the
arbitrary initial contents of the stack `CharBuffer`. -/
structure ProbeEnv where
  protoMajor : Nat
  ssl : Bool
  residual : Int × Errno
  trace : List (Int × Errno)
  fuel : Nat
  initBuf : List Nat
deriving Repr, DecidableEq

/-- `send_dummy_message_to_frontend()`: build the dummy ParameterStatus (or V2
notice) message into a fresh `CharBuffer` and flush it. -/
def send_dummy_message_to_frontend (env : ProbeEnv) : Option Int :=
  let built := send_build env.protoMajor env.initBuf
  flush_cbuf built.1 env.ssl env.residual env.trace env.fuel

/-- `doSanityCheck()`: the probe succeeds iff the flush returned 0.
`none` propagates a flush loop that did not terminate within fuel. -/
def doSanityCheck (env : ProbeEnv) : Option Bool :=
  (send_dummy_message_to_frontend env).map (fun status => status = 0)

/-- One signal delivery performed by `cancelTransaction`. -/
inductive SigTarget where
  | group (pid : Nat) (sig : Nat)
  | direct (pid : Nat) (sig : Nat)
deriving Repr, DecidableEq

/-- `SIGINT`. -/
def SIGINT : Nat := 2

/-- `cancelTransaction()`: under `HAVE_SETSID`, `kill(-MyProcPid, SIGINT)`
(whole process group) first, then unconditionally `kill(MyProcPid, SIGINT)`. -/
def cancelTransaction (haveSetsid : Bool) (pid : Nat) : List SigTarget :=
  (if haveSetsid then [SigTarget.group pid SIGINT] else []) ++
    [SigTarget.direct pid SIGINT]

/-- Per-backend state visible to the hooks: whether `RegisterTimeout`
succeeded (`MyTimeoutId != MAX_TIMEOUTS`), the timeout's fired indicator and
finish time (0 when never set; times are in milliseconds), the two GUCs, and
the interrupt flags consulted by `RETURN_IF_INTERRUPT_PENDING`. -/
structure WatchState where
  registered : Bool
  fired : Bool
  fin_time : Int
  enabled : Bool
  interval : Nat
  interruptPending : Bool
  parallelMessagePending : Bool
deriving Repr, DecidableEq

/-- Wrap a natural number into a signed 32-bit `int`, as C's overflowing
`int` arithmetic does on two's-complement hardware. -/
def toInt32 (n : Nat) : Int :=
  let m : Nat := n % 2 ^ 32
  if m < 2 ^ 31 then (m : Int) else (m : Int) - 2 ^ 32

/-- `MILLISECONDS(sec)` is `(sec * 1000)` computed in C `int` arithmetic. -/
def MILLISECONDS (sec : Nat) : Int := toInt32 (sec * 1000)

/-- `enable_timeout_after(MyTimeoutId, ms)`: clear the fired indicator and set
the finish time `ms` milliseconds from now (timeout.c semantics). -/
def enable_timeout_after (s : WatchState) (now ms : Int) : WatchState :=
  { s with fired := false, fin_time := now + ms }

/-- The condition of `RETURN_IF_INTERRUPT_PENDING`:
`!ParallelMessagePending && InterruptPending`. -/
def interruptGuard (s : WatchState) : Bool :=
  !s.parallelMessagePending && s.interruptPending

/-- `maybeScheduleAlarm()`: return false when the timeout is unregistered;
rearm when the previous timer already fired; otherwise return false when an
unexpired finish time is pending, else arm `MILLISECONDS(pg_retire_interval)`
from now.  Returns (C return value, updated state). -/
def maybeScheduleAlarm (s : WatchState) (now : Int) : Bool × WatchState :=
  if !s.registered then (false, s)
  else if s.fired then
    (true, enable_timeout_after s now (MILLISECONDS s.interval))
  else if s.fin_time ≠ 0 ∧ now < s.fin_time then (false, s)
  else (true, enable_timeout_after s now (MILLISECONDS s.interval))

/-- The command type distinction made by `pg_retire_post_parse_analyze`. -/
inductive CmdType where
  | utility
  | other
deriving Repr, DecidableEq

/-- `pg_retire_post_parse_analyze(pstate, query)`: return early when the
timeout is unregistered or the GUC is off, when the interrupt guard holds, or
for a utility statement; otherwise call `maybeScheduleAlarm`.  The boolean is
that call's return value (false on every early return). -/
def pg_retire_post_parse_analyze (s : WatchState) (cmd : CmdType) (now : Int) :
    Bool × WatchState :=
  if !s.registered || !s.enabled then (false, s)
  else if interruptGuard s then (false, s)
  else if cmd = CmdType.utility then (false, s)
  else maybeScheduleAlarm s now

/-- Observable outcome of one run of the alarm handler: whether a probe
(`doSanityCheck`) was performed, the signals sent, whether the alarm was
rescheduled, and the resulting state. -/
structure HandlerResult where
  probed : Bool
  signals : List SigTarget
  scheduled : Bool
  state : WatchState
deriving Repr, DecidableEq

/-- `pg_retire_alarm_handler()`: return immediately under the interrupt
guard; otherwise probe the client and either reschedule (probe ok) or call
`cancelTransaction` (probe failed).  `none` propagates a non-terminating
flush. -/
def pg_retire_alarm_handler (s : WatchState) (now : Int) (env : ProbeEnv)
    (haveSetsid : Bool) (pid : Nat) : Option HandlerResult :=
  if interruptGuard s then
    some { probed := false, signals := [], scheduled := false, state := s }
  else
    match doSanityCheck env with
    | none => none
    | some true =>
      let sched := maybeScheduleAlarm s now
      some { probed := true, signals := [], scheduled := sched.1,
             state := sched.2 }
    | some false =>
      some { probed := true, signals := cancelTransaction haveSetsid pid,
             scheduled := false, state := s }

/-! ## Properties of the buffer copy -/

/-- The copy loop never changes the buffer length. -/
theorem copyBytes_length (data buf : List Nat) (pos : Nat) :
    (copyBytes buf pos data).length = buf.length := by
  induction data generalizing buf pos with
  | nil => rfl
  | cons b bs ih => simp [copyBytes, ih]

/-- The byte-by-byte copy loop of `write_cbuf` overwrites exactly the slice
from `pos` to `pos + len` of the buffer with `data`, in source order. -/
theorem copyBytes_spec (data buf : List Nat) (pos : Nat)
    (h : pos + data.length ≤ buf.length) :
    copyBytes buf pos data =
      buf.take pos ++ data ++ buf.drop (pos + data.length) := by
  induction data generalizing buf pos with
  | nil => simp [copyBytes]
  | cons b bs ih =>
    have hpos : pos < buf.length := by simp at h; omega
    have hlen : pos + 1 + bs.length ≤ (buf.set pos b).length := by
      simp at h ⊢; omega
    rw [show copyBytes buf pos (b :: bs) =
          copyBytes (buf.set pos b) (pos + 1) bs from rfl,
        ih (buf.set pos b) (pos + 1) hlen]
    rw [List.set_take,
        List.set_eq_take_cons_drop b
          (by simp [List.length_take]; omega : pos < (buf.take (pos + 1)).length),
        List.take_take, List.drop_take, List.drop_set,
        if_pos (by omega : pos < pos + 1 + bs.length)]
    simp [Nat.min_self, Nat.add_assoc, Nat.add_comm 1 bs.length]

/-- C3 helper: the success branch of `write_cbuf`, with the buffer laid out as
prefix / copied data / untouched tail. -/
theorem write_cbuf_ok (cb : CharBuffer) (data : List Nat)
    (hlen : cb.buf.length = WBUFSIZE)
    (h : cb.pos + data.length ≤ WBUFSIZE) :
    write_cbuf cb data =
      ((data.length : Int),
        { buf := cb.buf.take cb.pos ++ data ++ cb.buf.drop (cb.pos + data.length),
          pos := cb.pos + data.length }) := by
  rw [write_cbuf, if_pos h, copyBytes_spec data cb.buf cb.pos (by omega)]

/-- A successful append to a buffer whose first `pos` bytes hold `w` yields a
buffer whose written prefix is `w ++ data`. -/
theorem write_cbuf_extends (cb : CharBuffer) (w data : List Nat)
    (hlen : cb.buf.length = WBUFSIZE) (hpos : cb.pos = w.length)
    (hw : cb.buf.take cb.pos = w) (h : cb.pos + data.length ≤ WBUFSIZE) :
    (write_cbuf cb data).1 = (data.length : Int) ∧
    (write_cbuf cb data).2.buf.length = WBUFSIZE ∧
    (write_cbuf cb data).2.pos = (w ++ data).length ∧
    (write_cbuf cb data).2.buf.take (write_cbuf cb data).2.pos = w ++ data := by
  rw [write_cbuf_ok cb data hlen h]
  have htk : (cb.buf.take cb.pos).length = cb.pos := by
    simp [List.length_take]; omega
  refine ⟨rfl, ?_, ?_, ?_⟩
  · simp [List.length_take, List.length_drop, hlen]
    omega
  · simp [hpos, htk, hw]
  · show (cb.buf.take cb.pos ++ data ++
        cb.buf.drop (cb.pos + data.length)).take (cb.pos + data.length) =
      w ++ data
    rw [hw]
    exact List.take_left' (by simp [← hpos])

set_option maxRecDepth 4000 in
/-- Length of the dummy parameter name, without its NUL terminator. -/
theorem strBytes_name_length :
    (strBytes PGRETIRE_DUMMY_PAREMETER_NAME).length = 20 := by rfl

set_option maxRecDepth 4000 in
/-- Length of the dummy parameter value, without its NUL terminator. -/
theorem strBytes_value_length :
    (strBytes PGRETIRE_DUMMY_PAREMETER_VALUE).length = 21 := by rfl

set_option maxRecDepth 4000 in
/-- Length of the V2 keep-alive notice, without its NUL terminator. -/
theorem strBytes_keepalive_length :
    (strBytes PGRETIRE_KEEP_ALIVE_MESSAGE).length = 34 := by rfl

/-! ## Claim theorems -/

/-- C3: for every `CharBuffer` state with cursor `pos <= 128` and every append
of `len` bytes: if `pos + len > 128` the append returns the failure code `-1`
and leaves the cursor and all previously written bytes unchanged (the whole
state is untouched); otherwise it copies the `len` bytes to positions
`pos ..< pos + len`, advances the cursor by exactly `len`, leaves the first
`pos` bytes unchanged, and the cursor still does not exceed 128. -/
theorem write_cbuf_append_behaviour (cb : CharBuffer) (data : List Nat)
    (hlen : cb.buf.length = WBUFSIZE) (hpos : cb.pos ≤ WBUFSIZE) :
    (WBUFSIZE < cb.pos + data.length → write_cbuf cb data = (-1, cb)) ∧
    (cb.pos + data.length ≤ WBUFSIZE →
      (write_cbuf cb data).1 = (data.length : Int) ∧
      (write_cbuf cb data).2.pos = cb.pos + data.length ∧
      (write_cbuf cb data).2.pos ≤ WBUFSIZE ∧
      (write_cbuf cb data).2.buf.take cb.pos = cb.buf.take cb.pos ∧
      ((write_cbuf cb data).2.buf.drop cb.pos).take data.length = data) := by
  constructor
  · intro hover
    rw [write_cbuf, if_neg (by omega)]
  · intro h
    rw [write_cbuf_ok cb data hlen h]
    have htk : (cb.buf.take cb.pos).length = cb.pos := by
      simp [List.length_take]; omega
    refine ⟨rfl, rfl, h, ?_, ?_⟩
    · rw [List.append_assoc, List.take_left' htk]
    · rw [List.append_assoc, List.drop_left' htk, List.take_left' rfl]

set_option maxRecDepth 4000 in
/-- C3 witness: a concrete buffer at cursor 120; a 16-byte append fails and
leaves the state untouched, an 8-byte append succeeds and fills the buffer. -/
theorem write_cbuf_append_behaviour_witness :
    (({ buf := List.replicate 128 9, pos := 120 } : CharBuffer).buf.length =
        WBUFSIZE ∧
      ({ buf := List.replicate 128 9, pos := 120 } : CharBuffer).pos ≤
        WBUFSIZE) ∧
    write_cbuf { buf := List.replicate 128 9, pos := 120 }
        (List.replicate 16 1) =
      (-1, { buf := List.replicate 128 9, pos := 120 }) ∧
    (write_cbuf { buf := List.replicate 128 9, pos := 120 }
        (List.replicate 8 1)).2.pos = 128 := by
  refine ⟨⟨by decide, by decide⟩, ?_, ?_⟩
  · exact (write_cbuf_append_behaviour { buf := List.replicate 128 9, pos := 120 }
      (List.replicate 16 1) (by decide) (by decide)).1 (by decide)
  · exact ((write_cbuf_append_behaviour { buf := List.replicate 128 9, pos := 120 }
      (List.replicate 8 1) (by decide) (by decide)).2 (by decide)).2.1

/-- A big-endian 32-bit field is 4 bytes. -/
theorem be32_length (n : Nat) : (be32 n).length = 4 := rfl

/-- C2: for the modern protocol generation (major version at least 3), the
probe message built by `send_dummy_message_to_frontend` is exactly the tag
byte `'S'` (83), a 4-byte big-endian `total_length` equal to
`len(key) + 1 + (len(value) + 1) + 4`, then the key string and the value
string each NUL-terminated, copied verbatim in that order; the cursor ends at
48. -/
theorem modern_probe_message_layout (protoMajor : Nat) (init : List Nat)
    (hproto : 3 ≤ protoMajor) (hinit : init.length = WBUFSIZE) :
    (send_build protoMajor init).1.pos = 48 ∧
    (send_build protoMajor init).1.buf.take 48 =
      83 :: (be32 ((strBytes PGRETIRE_DUMMY_PAREMETER_NAME).length + 1 +
            ((strBytes PGRETIRE_DUMMY_PAREMETER_VALUE).length + 1) + 4) ++
        ((strBytes PGRETIRE_DUMMY_PAREMETER_NAME ++ [0]) ++
          (strBytes PGRETIRE_DUMMY_PAREMETER_VALUE ++ [0]))) := by
  have hname : (cstringBytes PGRETIRE_DUMMY_PAREMETER_NAME).length = 21 := by
    simp [cstringBytes, strBytes_name_length]
  have hvalue : (cstringBytes PGRETIRE_DUMMY_PAREMETER_VALUE).length = 22 := by
    simp [cstringBytes, strBytes_value_length]
  simp only [send_build, if_pos hproto]
  obtain ⟨-, hl1, hp1, hw1⟩ :=
    write_cbuf_extends ⟨init, 0⟩ [] [83] hinit rfl rfl (by simp [WBUFSIZE])
  obtain ⟨-, hl2, hp2, hw2⟩ :=
    write_cbuf_extends _ ([] ++ [83])
      (be32 ((cstringBytes PGRETIRE_DUMMY_PAREMETER_NAME).length +
             (cstringBytes PGRETIRE_DUMMY_PAREMETER_VALUE).length + 4))
      hl1 hp1 hw1 (by rw [hp1]; simp [be32_length, WBUFSIZE])
  obtain ⟨-, hl3, hp3, hw3⟩ :=
    write_cbuf_extends _ _ (cstringBytes PGRETIRE_DUMMY_PAREMETER_NAME)
      hl2 hp2 hw2
      (by rw [hp2]; simp [be32_length, hname, WBUFSIZE])
  obtain ⟨-, hl4, hp4, hw4⟩ :=
    write_cbuf_extends _ _ (cstringBytes PGRETIRE_DUMMY_PAREMETER_VALUE)
      hl3 hp3 hw3
      (by rw [hp3]; simp [be32_length, hname, hvalue, WBUFSIZE])
  have hpos48 :
      ((((([] ++ [83]) ++
        be32 ((cstringBytes PGRETIRE_DUMMY_PAREMETER_NAME).length +
              (cstringBytes PGRETIRE_DUMMY_PAREMETER_VALUE).length + 4)) ++
        cstringBytes PGRETIRE_DUMMY_PAREMETER_NAME) ++
        cstringBytes PGRETIRE_DUMMY_PAREMETER_VALUE)).length = 48 := by
    simp [be32_length, hname, hvalue]
  constructor
  · rw [hp4, hpos48]
  · rw [show (48 : Nat) = ((((([] ++ [83]) ++
        be32 ((cstringBytes PGRETIRE_DUMMY_PAREMETER_NAME).length +
              (cstringBytes PGRETIRE_DUMMY_PAREMETER_VALUE).length + 4)) ++
        cstringBytes PGRETIRE_DUMMY_PAREMETER_NAME) ++
        cstringBytes PGRETIRE_DUMMY_PAREMETER_VALUE)).length from hpos48.symm,
       ← hp4, hw4]
    simp [cstringBytes, strBytes_name_length, strBytes_value_length]

set_option maxRecDepth 4000 in
/-- C2 witness: the layout theorem applied to protocol major 3 and a zeroed
stack buffer. -/
theorem modern_probe_message_layout_witness :
    (3 ≤ 3 ∧ (List.replicate 128 0).length = WBUFSIZE) ∧
    ((send_build 3 (List.replicate 128 0)).1.pos = 48 ∧
     (send_build 3 (List.replicate 128 0)).1.buf.take 48 =
      83 :: (be32 ((strBytes PGRETIRE_DUMMY_PAREMETER_NAME).length + 1 +
            ((strBytes PGRETIRE_DUMMY_PAREMETER_VALUE).length + 1) + 4) ++
        ((strBytes PGRETIRE_DUMMY_PAREMETER_NAME ++ [0]) ++
          (strBytes PGRETIRE_DUMMY_PAREMETER_VALUE ++ [0])))) :=
  ⟨⟨by decide, by decide⟩,
    modern_probe_message_layout 3 (List.replicate 128 0) (by decide) (by decide)⟩

/-- C10: for the two fixed probe payloads the program constructs, every
append into the 128-byte buffer succeeds: the `write_cbuf` return codes are
the full byte counts `[1, 4, 21, 22]` (modern, total 48) or `[1, 35]`
(legacy, total 36), the failure code `-1` never occurs, and the final cursor
fits the capacity, so the flushed message is never truncated. -/
theorem probe_construction_never_overflows (protoMajor : Nat)
    (init : List Nat) (hinit : init.length = WBUFSIZE) :
    (3 ≤ protoMajor →
      (send_build protoMajor init).2 = [1, 4, 21, 22] ∧
      (send_build protoMajor init).1.pos = 48) ∧
    (protoMajor < 3 →
      (send_build protoMajor init).2 = [1, 35] ∧
      (send_build protoMajor init).1.pos = 36) ∧
    ¬ (-1 : Int) ∈ (send_build protoMajor init).2 ∧
    (send_build protoMajor init).1.pos ≤ WBUFSIZE := by
  have hname : (cstringBytes PGRETIRE_DUMMY_PAREMETER_NAME).length = 21 := by
    simp [cstringBytes, strBytes_name_length]
  have hvalue : (cstringBytes PGRETIRE_DUMMY_PAREMETER_VALUE).length = 22 := by
    simp [cstringBytes, strBytes_value_length]
  have hka : (cstringBytes PGRETIRE_KEEP_ALIVE_MESSAGE).length = 35 := by
    simp [cstringBytes, strBytes_keepalive_length]
  by_cases hp : 3 ≤ protoMajor
  · have hmain : (send_build protoMajor init).2 = [1, 4, 21, 22] ∧
        (send_build protoMajor init).1.pos = 48 := by
      simp only [send_build, if_pos hp]
      obtain ⟨hc1, hl1, hp1, hw1⟩ :=
        write_cbuf_extends ⟨init, 0⟩ [] [83] hinit rfl rfl (by simp [WBUFSIZE])
      obtain ⟨hc2, hl2, hp2, hw2⟩ :=
        write_cbuf_extends _ ([] ++ [83])
          (be32 ((cstringBytes PGRETIRE_DUMMY_PAREMETER_NAME).length +
                 (cstringBytes PGRETIRE_DUMMY_PAREMETER_VALUE).length + 4))
          hl1 hp1 hw1 (by rw [hp1]; simp [be32_length, WBUFSIZE])
      obtain ⟨hc3, hl3, hp3, hw3⟩ :=
        write_cbuf_extends _ _ (cstringBytes PGRETIRE_DUMMY_PAREMETER_NAME)
          hl2 hp2 hw2 (by rw [hp2]; simp [be32_length, hname, WBUFSIZE])
      obtain ⟨hc4, hl4, hp4, hw4⟩ :=
        write_cbuf_extends _ _ (cstringBytes PGRETIRE_DUMMY_PAREMETER_VALUE)
          hl3 hp3 hw3
          (by rw [hp3]; simp [be32_length, hname, hvalue, WBUFSIZE])
      rw [hc1, hc2, hc3, hc4, hp4]
      simp [be32_length, hname, hvalue]
    refine ⟨fun _ => hmain, fun hlt => absurd hp (by omega), ?_, ?_⟩
    · rw [hmain.1]; decide
    · rw [hmain.2]; decide
  · have hmain : (send_build protoMajor init).2 = [1, 35] ∧
        (send_build protoMajor init).1.pos = 36 := by
      simp only [send_build, if_neg hp]
      obtain ⟨hc1, hl1, hp1, hw1⟩ :=
        write_cbuf_extends ⟨init, 0⟩ [] [78] hinit rfl rfl (by simp [WBUFSIZE])
      obtain ⟨hc2, hl2, hp2, hw2⟩ :=
        write_cbuf_extends _ ([] ++ [78])
          (cstringBytes PGRETIRE_KEEP_ALIVE_MESSAGE)
          hl1 hp1 hw1 (by rw [hp1]; simp [hka, WBUFSIZE])
      rw [hc1, hc2, hp2]
      simp [hka]
    refine ⟨fun hge => absurd hge hp, fun _ => hmain, ?_, ?_⟩
    · rw [hmain.1]; decide
    · rw [hmain.2]; decide

set_option maxRecDepth 4000 in
/-- C10 witness: both protocol generations on a zeroed stack buffer. -/
theorem probe_construction_never_overflows_witness :
    ((List.replicate 128 0).length = WBUFSIZE ∧ 3 ≤ 3 ∧ 2 < 3) ∧
    (send_build 3 (List.replicate 128 0)).2 = [1, 4, 21, 22] ∧
    (send_build 2 (List.replicate 128 0)).2 = [1, 35] :=
  ⟨⟨by decide, by decide, by decide⟩,
    ((probe_construction_never_overflows 3 (List.replicate 128 0)
        (by decide)).1 (by decide)).1,
    ((probe_construction_never_overflows 2 (List.replicate 128 0)
        (by decide)).2.1 (by decide)).1⟩

/-- C6: given a registered timeout, `maybeScheduleAlarm` arms a new deadline
only if no unexpired deadline is pending or the previous one already fired:
with the fired indicator set it rearms and returns true; with an unexpired
deadline pending (`fin_time` nonzero and in the future) it returns false and
changes nothing; otherwise it arms and returns true. -/
theorem maybeScheduleAlarm_policy (s : WatchState) (now : Int)
    (hreg : s.registered = true) :
    (s.fired = true →
      maybeScheduleAlarm s now =
        (true, enable_timeout_after s now (MILLISECONDS s.interval))) ∧
    (s.fired = false → s.fin_time ≠ 0 → now < s.fin_time →
      maybeScheduleAlarm s now = (false, s)) ∧
    (s.fired = false → (s.fin_time = 0 ∨ s.fin_time ≤ now) →
      maybeScheduleAlarm s now =
        (true, enable_timeout_after s now (MILLISECONDS s.interval))) := by
  refine ⟨fun hf => ?_, fun hf hne hlt => ?_, fun hf hexp => ?_⟩
  · simp [maybeScheduleAlarm, hreg, hf]
  · simp [maybeScheduleAlarm, hreg, hf, hne, hlt]
  · have hcond : ¬ (s.fin_time ≠ 0 ∧ now < s.fin_time) := by
      rcases hexp with h0 | hle
      · simp [h0]
      · intro hc
        omega
    simp [maybeScheduleAlarm, hreg, hf, hcond]

/-- C6 witness: with a deadline of 100 still in the future at time 5,
rescheduling is a no-op; after it expires (time 200), it rearms. -/
theorem maybeScheduleAlarm_policy_witness :
    ((⟨true, false, 100, true, 10, false, false⟩ : WatchState).registered =
        true ∧ (5 : Int) < 100 ∧ (100 : Int) ≤ 200) ∧
    maybeScheduleAlarm ⟨true, false, 100, true, 10, false, false⟩ 5 =
      (false, ⟨true, false, 100, true, 10, false, false⟩) ∧
    maybeScheduleAlarm ⟨true, false, 100, true, 10, false, false⟩ 200 =
      (true, ⟨true, false, 10200, true, 10, false, false⟩) :=
  ⟨⟨rfl, by decide, by decide⟩,
    (maybeScheduleAlarm_policy ⟨true, false, 100, true, 10, false, false⟩ 5
      rfl).2.1 rfl (by decide) (by decide),
    (maybeScheduleAlarm_policy ⟨true, false, 100, true, 10, false, false⟩ 200
      rfl).2.2 rfl (Or.inr (by decide))⟩

/-- `sec * 1000` stays within a 32-bit `int` exactly when it is below
`2 ^ 31`; then `MILLISECONDS` computes it without wrap. -/
theorem MILLISECONDS_no_overflow (sec : Nat) (h : sec * 1000 < 2 ^ 31) :
    MILLISECONDS sec = ((sec : Int) * 1000) := by
  have h32 : sec * 1000 < 2 ^ 32 := by omega
  simp only [MILLISECONDS, toInt32]
  rw [Nat.mod_eq_of_lt h32, if_pos h]
  push_cast
  ring

/-- C9 counterexample: at the documented maximum `interval_seconds = INT_MAX`
(2147483647), `MILLISECONDS` wraps to `-1000`, so the armed deadline is 1000
milliseconds in the past, not `INT_MAX` seconds in the future. -/
theorem interval_overflow_counterexample :
    (maybeScheduleAlarm ⟨true, true, 0, true, 2147483647, false, false⟩
        0).2.fin_time = -1000 ∧
    ¬ (maybeScheduleAlarm ⟨true, true, 0, true, 2147483647, false, false⟩
        0).2.fin_time = (2147483647 : Int) * 1000 := by
  constructor <;> decide

/-- C9 amended: for `interval_seconds = I` with `I * 1000` representable in a
32-bit `int` (`I ≤ 2147483`), the alarm handler after an `Alive` probe arms
the next deadline exactly `I * 1000` milliseconds from now; larger documented
values of `I` overflow the `MILLISECONDS` multiplication. -/
theorem interval_schedules_exactly (s : WatchState) (now : Int)
    (env : ProbeEnv) (hs : Bool) (pid : Nat)
    (hreg : s.registered = true) (hfired : s.fired = true)
    (hguard : interruptGuard s = false)
    (hok : doSanityCheck env = some true)
    (hI : s.interval ≤ 2147483) :
    pg_retire_alarm_handler s now env hs pid =
      some { probed := true, signals := [], scheduled := true,
             state := { s with
                        fired := false
                        fin_time := now + (s.interval : Int) * 1000 } } := by
  have hms : MILLISECONDS s.interval = ((s.interval : Int) * 1000) :=
    MILLISECONDS_no_overflow s.interval (by omega)
  simp [pg_retire_alarm_handler, hguard, hok, maybeScheduleAlarm, hreg, hfired,
    enable_timeout_after, hms]

set_option maxRecDepth 4000 in
/-- C9 amended witness: interval 10 seconds, probe answered by one full
48-byte write; the new deadline is 11000 at now = 1000. -/
theorem interval_schedules_exactly_witness :
    ((⟨true, true, 0, true, 10, false, false⟩ : WatchState).registered = true ∧
      (⟨true, true, 0, true, 10, false, false⟩ : WatchState).fired = true ∧
      interruptGuard ⟨true, true, 0, true, 10, false, false⟩ = false ∧
      doSanityCheck ⟨3, false, (0, Errno.other 0), [(48, Errno.other 0)], 2,
        List.replicate 128 0⟩ = some true ∧
      (⟨true, true, 0, true, 10, false, false⟩ : WatchState).interval ≤
        2147483) ∧
    pg_retire_alarm_handler ⟨true, true, 0, true, 10, false, false⟩ 1000
        ⟨3, false, (0, Errno.other 0), [(48, Errno.other 0)], 2,
          List.replicate 128 0⟩ true 42 =
      some { probed := true, signals := [], scheduled := true,
             state := ⟨true, false, 11000, true, 10, false, false⟩ } :=
  ⟨⟨rfl, rfl, rfl, by decide, by decide⟩,
    interval_schedules_exactly ⟨true, true, 0, true, 10, false, false⟩ 1000
      ⟨3, false, (0, Errno.other 0), [(48, Errno.other 0)], 2,
        List.replicate 128 0⟩ true 42 rfl rfl rfl (by decide) (by decide)⟩

set_option maxRecDepth 4000 in
/-- C1 counterexample: with `pg_retire.enable = off` (`enabled = false`), an
already-armed deadline that fires still probes the client (`probed = true`)
and, the probe succeeding, arms a new deadline 10 seconds out: neither
`pg_retire_alarm_handler` nor `maybeScheduleAlarm` consults the GUC. -/
theorem disabled_handler_still_probes_counterexample :
    pg_retire_alarm_handler ⟨true, true, 0, false, 10, false, false⟩ 1000
        ⟨3, false, (0, Errno.other 0), [(48, Errno.other 0)], 2,
          List.replicate 128 0⟩ true 42 =
      some { probed := true, signals := [], scheduled := true,
             state := ⟨true, false, 11000, false, 10, false, false⟩ } := by
  decide

/-- C1 amended: toggling `enabled` to false stops the per-statement hook from
arming any deadline (it is a no-op for every statement), but the timer expiry
handler does not consult `enabled`: an already-armed deadline that fires
still probes the client and, when the probe succeeds, rearms the alarm. -/
theorem disable_only_stops_hook_arming (s : WatchState) (cmd : CmdType)
    (now : Int) (env : ProbeEnv) (hs : Bool) (pid : Nat)
    (hdis : s.enabled = false) (hguard : interruptGuard s = false)
    (hreg : s.registered = true) (hfired : s.fired = true)
    (hok : doSanityCheck env = some true) :
    pg_retire_post_parse_analyze s cmd now = (false, s) ∧
    pg_retire_alarm_handler s now env hs pid =
      some { probed := true, signals := [], scheduled := true,
             state := enable_timeout_after s now (MILLISECONDS s.interval) } := by
  constructor
  · simp [pg_retire_post_parse_analyze, hdis]
  · simp [pg_retire_alarm_handler, hguard, hok, maybeScheduleAlarm, hreg,
      hfired]

set_option maxRecDepth 4000 in
/-- C1 amended witness: a disabled session whose armed deadline fires at time
1000 with the client alive; the hook is a no-op but the handler rearms. -/
theorem disable_only_stops_hook_arming_witness :
    ((⟨true, true, 500, false, 10, false, false⟩ : WatchState).enabled =
        false ∧
      interruptGuard ⟨true, true, 500, false, 10, false, false⟩ = false ∧
      (⟨true, true, 500, false, 10, false, false⟩ : WatchState).registered =
        true ∧
      (⟨true, true, 500, false, 10, false, false⟩ : WatchState).fired = true ∧
      doSanityCheck ⟨3, false, (0, Errno.other 0), [(48, Errno.other 0)], 2,
        List.replicate 128 0⟩ = some true) ∧
    pg_retire_post_parse_analyze ⟨true, true, 500, false, 10, false, false⟩
        CmdType.other 1000 =
      (false, ⟨true, true, 500, false, 10, false, false⟩) ∧
    pg_retire_alarm_handler ⟨true, true, 500, false, 10, false, false⟩ 1000
        ⟨3, false, (0, Errno.other 0), [(48, Errno.other 0)], 2,
          List.replicate 128 0⟩ false 7 =
      some { probed := true, signals := [], scheduled := true,
             state := enable_timeout_after
               ⟨true, true, 500, false, 10, false, false⟩ 1000
               (MILLISECONDS 10) } :=
  ⟨⟨rfl, rfl, rfl, rfl, by decide⟩,
    disable_only_stops_hook_arming ⟨true, true, 500, false, 10, false, false⟩
      CmdType.other 1000
      ⟨3, false, (0, Errno.other 0), [(48, Errno.other 0)], 2,
        List.replicate 128 0⟩ false 7 rfl rfl rfl rfl (by decide)⟩

/-- C8 counterexample: with `InterruptPending` set (a cancellation in flight)
but `ParallelMessagePending` also set, the per-statement rearm path is not
skipped: for a non-utility statement it reaches `maybeScheduleAlarm` and arms
a deadline. -/
theorem rearm_interrupt_skip_counterexample :
    (⟨true, true, 0, true, 10, true, true⟩ : WatchState).interruptPending =
        true ∧
    pg_retire_post_parse_analyze ⟨true, true, 0, true, 10, true, true⟩
        CmdType.other 0 =
      (true, ⟨true, false, 10000, true, 10, true, true⟩) := by
  constructor <;> decide

/-- C8 amended: the per-statement rearm path is a no-op (it neither probes
nor arms any deadline) for every utility statement, and it is skipped
entirely whenever `InterruptPending` is set while no parallel-worker message
is pending; when `ParallelMessagePending` is also set, the pending interrupt
does not suppress rearming. -/
theorem rearm_skips_utility_and_pending_interrupt (s : WatchState)
    (cmd : CmdType) (now : Int) :
    pg_retire_post_parse_analyze s CmdType.utility now = (false, s) ∧
    (s.interruptPending = true → s.parallelMessagePending = false →
      pg_retire_post_parse_analyze s cmd now = (false, s)) := by
  constructor
  · by_cases h1 : (!s.registered || !s.enabled) = true
    · simp [pg_retire_post_parse_analyze, h1]
    · by_cases h2 : interruptGuard s = true
      · simp [pg_retire_post_parse_analyze, h1, h2]
      · simp [pg_retire_post_parse_analyze, h1, h2]
  · intro hip hpar
    have hg : interruptGuard s = true := by simp [interruptGuard, hip, hpar]
    by_cases h1 : (!s.registered || !s.enabled) = true
    · simp [pg_retire_post_parse_analyze, h1]
    · simp [pg_retire_post_parse_analyze, h1, hg]

/-- C8 amended witness: an enabled, registered session with an interrupt
pending and no parallel message; both a utility statement and a normal
statement leave the state untouched. -/
theorem rearm_skips_utility_and_pending_interrupt_witness :
    ((⟨true, true, 0, true, 10, true, false⟩ : WatchState).interruptPending =
        true ∧
      (⟨true, true, 0, true, 10, true, false⟩ :
          WatchState).parallelMessagePending = false) ∧
    pg_retire_post_parse_analyze ⟨true, true, 0, true, 10, true, false⟩
        CmdType.utility 0 =
      (false, ⟨true, true, 0, true, 10, true, false⟩) ∧
    pg_retire_post_parse_analyze ⟨true, true, 0, true, 10, true, false⟩
        CmdType.other 0 =
      (false, ⟨true, true, 0, true, 10, true, false⟩) :=
  ⟨⟨rfl, rfl⟩,
    (rearm_skips_utility_and_pending_interrupt
      ⟨true, true, 0, true, 10, true, false⟩ CmdType.other 0).1,
    (rearm_skips_utility_and_pending_interrupt
      ⟨true, true, 0, true, 10, true, false⟩ CmdType.other 0).2 rfl rfl⟩

/-- Cursor change of one append, independent of the buffer contents. -/
theorem write_cbuf_pos (cb : CharBuffer) (data : List Nat) :
    (write_cbuf cb data).2.pos =
      if cb.pos + data.length ≤ WBUFSIZE then cb.pos + data.length
      else cb.pos := by
  unfold write_cbuf
  split <;> rfl

/-- The built probe message always has a nonzero cursor (48 modern, 36
legacy), whatever the initial stack contents. -/
theorem send_build_pos (protoMajor : Nat) (init : List Nat) :
    (send_build protoMajor init).1.pos =
      if 3 ≤ protoMajor then 48 else 36 := by
  have hname : (cstringBytes PGRETIRE_DUMMY_PAREMETER_NAME).length = 21 := by
    simp [cstringBytes, strBytes_name_length]
  have hvalue : (cstringBytes PGRETIRE_DUMMY_PAREMETER_VALUE).length = 22 := by
    simp [cstringBytes, strBytes_value_length]
  have hka : (cstringBytes PGRETIRE_KEEP_ALIVE_MESSAGE).length = 35 := by
    simp [cstringBytes, strBytes_keepalive_length]
  by_cases hp : 3 ≤ protoMajor
  · simp [send_build, hp, write_cbuf_pos, be32_length, hname, hvalue, WBUFSIZE]
  · simp [send_build, hp, write_cbuf_pos, hka, WBUFSIZE]

/-- C4: fault tolerance of the probe flush.  (i) A would-block result
(`EAGAIN`/`EWOULDBLOCK`) on the first write makes the flush return success, so
the probe assessment is `Alive` and the handler sends no cancellation signal
(it only runs the reschedule path).  (ii) At any loop state, a write
interrupted by `EINTR` is retried immediately with the same remaining length
and offset.  (iii) At any loop state, a partial write of `0 < r < remaining`
bytes advances the offset by `r` and continues with the remaining bytes. -/
theorem flush_transient_fault_tolerance
    (s : WatchState) (now : Int) (hs : Bool) (pid : Nat)
    (env : ProbeEnv) (e0 : Errno) (r0 : Int)
    (rest : List (Int × Errno)) (fuel : Nat)
    (hguard : interruptGuard s = false)
    (hssl : env.ssl = false)
    (htrace : env.trace = (r0, e0) :: rest)
    (hr0 : r0 ≤ 0)
    (he0 : e0 = Errno.EAGAIN ∨ e0 = Errno.EWOULDBLOCK)
    (hfuel : env.fuel = fuel + 1) :
    (send_dummy_message_to_frontend env = some 0 ∧
      pg_retire_alarm_handler s now env hs pid =
        some { probed := true, signals := [],
               scheduled := (maybeScheduleAlarm s now).1,
               state := (maybeScheduleAlarm s now).2 }) ∧
    (∀ (res : Int × Errno) (wlen offset r : Int)
        (tr : List (Int × Errno)) (f : Nat),
      r ≤ 0 →
      flushIter false res wlen offset ((r, Errno.EINTR) :: tr) (f + 1) =
        flushIter false res wlen offset tr f) ∧
    (∀ (res : Int × Errno) (wlen offset r : Int) (e : Errno)
        (tr : List (Int × Errno)) (f : Nat),
      0 < r → r < wlen →
      flushIter false res wlen offset ((r, e) :: tr) (f + 1) =
        flushIter false res (wlen - r) (offset + r) tr f) := by
  have hr0n : ¬ (0 < r0) := by omega
  have hsend : send_dummy_message_to_frontend env = some 0 := by
    unfold send_dummy_message_to_frontend flush_cbuf
    have hpos := send_build_pos env.protoMajor env.initBuf
    rw [hssl, htrace, hfuel]
    have hne : (send_build env.protoMajor env.initBuf).1.pos ≠ 0 := by
      rw [hpos]
      split <;> decide
    rw [if_neg hne]
    rcases he0 with h | h <;>
      simp [flushIter, hr0n, h]
  refine ⟨⟨hsend, ?_⟩, fun res wlen offset r tr f hr => ?_,
    fun res wlen offset r e tr f hrpos hrlt => ?_⟩
  · have hok : doSanityCheck env = some true := by
      simp [doSanityCheck, hsend]
    simp [pg_retire_alarm_handler, hguard, hok]
  · have hrn : ¬ (0 < r) := by omega
    simp [flushIter, hrn]
  · have h1 : ¬ (wlen - r = 0) := by omega
    have h2 : ¬ (wlen - r < 0) := by omega
    simp [flushIter, hrpos, h1, h2]

set_option maxRecDepth 4000 in
/-- C4 witness: a probe whose only write attempt would block; the handler
stays on the reschedule path, and the step equations at a concrete loop
state. -/
theorem flush_transient_fault_tolerance_witness :
    (interruptGuard ⟨true, true, 0, true, 10, false, false⟩ = false ∧
      (⟨3, false, (0, Errno.other 0), [(-1, Errno.EAGAIN)], 3,
          List.replicate 128 0⟩ : ProbeEnv).ssl = false ∧
      (-1 : Int) ≤ 0) ∧
    send_dummy_message_to_frontend
      ⟨3, false, (0, Errno.other 0), [(-1, Errno.EAGAIN)], 3,
        List.replicate 128 0⟩ = some 0 ∧
    flushIter false (0, Errno.other 0) 48 0 [(-2, Errno.EINTR)] 3 =
      flushIter false (0, Errno.other 0) 48 0 [] 2 ∧
    flushIter false (0, Errno.other 0) 48 0 [(20, Errno.other 0)] 3 =
      flushIter false (0, Errno.other 0) 28 20 [] 2 := by
  have h := flush_transient_fault_tolerance
    ⟨true, true, 0, true, 10, false, false⟩ 0 true 42
    ⟨3, false, (0, Errno.other 0), [(-1, Errno.EAGAIN)], 3,
      List.replicate 128 0⟩
    Errno.EAGAIN (-1) [] 2 rfl rfl rfl (by decide) (Or.inl rfl) rfl
  exact ⟨⟨rfl, rfl, by decide⟩, h.1.1,
    h.2.1 (0, Errno.other 0) 48 0 (-2) [] 2 (by decide),
    h.2.2 (0, Errno.other 0) 48 0 20 (Errno.other 0) [] 2 (by decide)
      (by decide)⟩

/-- C5: a hard error on the socket write (return at most 0 with an errno
other than `EINTR`, `EAGAIN`, `EWOULDBLOCK`) makes the flush return `-1`, so
the probe assessment is `Dead` and the handler invokes the cancellation
trigger exactly once: its signal list is precisely a process-group SIGINT
(when `HAVE_SETSID` group signalling is available) followed unconditionally
by a direct SIGINT to the worker process itself. -/
theorem hard_error_single_cancellation
    (s : WatchState) (now : Int) (hs : Bool) (pid : Nat)
    (env : ProbeEnv) (e0 : Errno) (r0 : Int)
    (rest : List (Int × Errno)) (fuel : Nat)
    (hguard : interruptGuard s = false)
    (hssl : env.ssl = false)
    (htrace : env.trace = (r0, e0) :: rest)
    (hr0 : r0 ≤ 0)
    (he1 : e0 ≠ Errno.EINTR) (he2 : e0 ≠ Errno.EAGAIN)
    (he3 : e0 ≠ Errno.EWOULDBLOCK)
    (hfuel : env.fuel = fuel + 1) :
    send_dummy_message_to_frontend env = some (-1) ∧
    pg_retire_alarm_handler s now env hs pid =
      some { probed := true,
             signals := (if hs then [SigTarget.group pid SIGINT] else []) ++
               [SigTarget.direct pid SIGINT],
             scheduled := false, state := s } := by
  have hr0n : ¬ (0 < r0) := by omega
  have hsend : send_dummy_message_to_frontend env = some (-1) := by
    unfold send_dummy_message_to_frontend flush_cbuf
    have hpos := send_build_pos env.protoMajor env.initBuf
    rw [hssl, htrace, hfuel]
    have hne : (send_build env.protoMajor env.initBuf).1.pos ≠ 0 := by
      rw [hpos]
      split <;> decide
    rw [if_neg hne]
    simp [flushIter, hr0n, he1, he2, he3]
  refine ⟨hsend, ?_⟩
  have hbad : doSanityCheck env = some false := by
    simp [doSanityCheck, hsend]
  simp [pg_retire_alarm_handler, hguard, hbad, cancelTransaction]

set_option maxRecDepth 4000 in
/-- C5 witness: a probe whose write fails with `ECONNRESET` (errno 104): the
handler sends exactly the group SIGINT followed by the direct SIGINT. -/
theorem hard_error_single_cancellation_witness :
    (interruptGuard ⟨true, true, 0, true, 10, false, false⟩ = false ∧
      (-1 : Int) ≤ 0 ∧ Errno.other 104 ≠ Errno.EINTR) ∧
    send_dummy_message_to_frontend
      ⟨3, false, (0, Errno.other 0), [(-1, Errno.other 104)], 1,
        List.replicate 128 0⟩ = some (-1) ∧
    pg_retire_alarm_handler ⟨true, true, 0, true, 10, false, false⟩ 0
        ⟨3, false, (0, Errno.other 0), [(-1, Errno.other 104)], 1,
          List.replicate 128 0⟩ true 99 =
      some { probed := true,
             signals := [SigTarget.group 99 SIGINT, SigTarget.direct 99 SIGINT],
             scheduled := false,
             state := ⟨true, true, 0, true, 10, false, false⟩ } := by
  have h := hard_error_single_cancellation
    ⟨true, true, 0, true, 10, false, false⟩ 0 true 99
    ⟨3, false, (0, Errno.other 0), [(-1, Errno.other 104)], 1,
      List.replicate 128 0⟩
    (Errno.other 104) (-1) [] 0 rfl rfl rfl (by decide) (by decide)
    (by decide) (by decide) rfl
  exact ⟨⟨rfl, by decide, by decide⟩, h.1, h.2⟩

set_option maxRecDepth 4000 in
/-- C7 (the SSL branch defect): over an encrypted transport the flush loop
indeed performs no socket write — its outcome never depends on the socket
(the write oracle `trace` is irrelevant) — but it does not return `Alive`
unconditionally: the loop falls through to the result checks with the
uninitialized local `r` and the stale process `errno`.  With residual
`r = -1` and a stale hard errno (`ECONNRESET`, 104) the probe returns `-1`,
the assessment is `Dead`, and the handler delivers cancellation signals; with
a stale `errno = EINTR` the loop never terminates at all. -/
theorem ssl_probe_defect :
    (∀ (res : Int × Errno) (fuel : Nat) (wlen offset : Int)
        (tr tr2 : List (Int × Errno)),
      flushIter true res wlen offset tr fuel =
        flushIter true res wlen offset tr2 fuel) ∧
    send_dummy_message_to_frontend
      ⟨3, true, (-1, Errno.other 104), [], 1, List.replicate 128 0⟩ =
      some (-1) ∧
    pg_retire_alarm_handler ⟨true, true, 0, true, 10, false, false⟩ 0
        ⟨3, true, (-1, Errno.other 104), [], 1, List.replicate 128 0⟩ true 77 =
      some { probed := true,
             signals := [SigTarget.group 77 SIGINT,
               SigTarget.direct 77 SIGINT],
             scheduled := false,
             state := ⟨true, true, 0, true, 10, false, false⟩ } ∧
    (∀ (fuel : Nat) (wlen offset : Int),
      flushIter true (-1, Errno.EINTR) wlen offset [] fuel = none) := by
  refine ⟨?_, by decide, by decide, ?_⟩
  · rintro ⟨r, e⟩ fuel
    induction fuel with
    | zero =>
      intro wlen offset tr tr2
      rfl
    | succ f ih =>
      intro wlen offset tr tr2
      by_cases h1 : 0 < r <;> by_cases h2 : wlen - r = 0 <;>
        by_cases h3 : wlen - r < 0 <;>
        by_cases h4 : e = Errno.EINTR <;>
        by_cases h5 : e = Errno.EAGAIN ∨ e = Errno.EWOULDBLOCK <;>
        simp [flushIter, h1, h2, h3, h4, h5, ih] <;>
        (first
          | exact ih _ _ _ _
          | (subst h4; exact ih _ _ _ _))
  · intro fuel
    induction fuel with
    | zero =>
      intro wlen offset
      rfl
    | succ f ih =>
      intro wlen offset
      simp [flushIter, ih]

end PgRetire
